import Mathlib

/-!
Shallow embedding of the valuation wizard in
`src/components/StepProgressBar.tsx` (the App component): the dynamic step
sequencer, the per-step validation, the navigation functions, the cascading
location handlers and the valuation engine, together with the JavaScript
string-to-number conversions they rely on.  Numbers are modelled by `ℚ`
(every constant in the source is decimal), `Math.round` by Mathlib's
`round` (both send x to ⌊x + 1/2⌋), and the wall-clock year
(`new Date().getFullYear()`) is an explicit parameter `cy`.
-/

namespace Avaliacao

/-- Numeric value of a list of decimal digit characters, most significant
first, as read by the JavaScript parsers. -/
def digitsVal (ds : List Char) : ℕ :=
  ds.foldl (fun n c => 10 * n + (c.toNat - 48)) 0

/-- Maximal leading run of decimal digits, `none` when there is no digit:
the integer part consumed by JavaScript parseInt. -/
def leadingDigits (cs : List Char) : Option ℕ :=
  let ds := cs.takeWhile Char.isDigit
  if ds.isEmpty then none else some (digitsVal ds)

/-- Model of JavaScript parseInt (radix 10): skip leading whitespace, an
optional sign, then the maximal digit prefix; NaN (here none) when no digit
follows.  Hexadecimal prefixes are not modelled. -/
def parseIntJS (s : String) : Option ℤ :=
  match s.data.dropWhile Char.isWhitespace with
  | '-' :: rest => (leadingDigits rest).map (fun n => -(n : ℤ))
  | '+' :: rest => (leadingDigits rest).map (fun n => (n : ℤ))
  | rest => (leadingDigits rest).map (fun n => (n : ℤ))

/-- Maximal leading decimal literal `digits[.digits]` of a character list,
`none` when it has no digit: the prefix consumed by JavaScript parseFloat. -/
def leadingDecimal (cs : List Char) : Option ℚ :=
  let ds := cs.takeWhile Char.isDigit
  let rest := cs.dropWhile Char.isDigit
  let fs := match rest with
    | '.' :: r => r.takeWhile Char.isDigit
    | _ => []
  if ds.isEmpty && fs.isEmpty then none
  else some ((digitsVal ds : ℚ) + (digitsVal fs : ℚ) / (10 : ℚ) ^ fs.length)

/-- Model of JavaScript parseFloat: skip leading whitespace, an optional
sign, then the maximal `digits[.digits]` prefix; NaN (here none) when no
digit is found.  Exponent notation and Infinity are not modelled. -/
def parseFloatJS (s : String) : Option ℚ :=
  match s.data.dropWhile Char.isWhitespace with
  | '-' :: rest => (leadingDecimal rest).map (fun q => -q)
  | '+' :: rest => leadingDecimal rest
  | rest => leadingDecimal rest

/-- Characters remaining after stripping whitespace from both ends, as
String.prototype.trim does (ASCII whitespace). -/
def trimChars (cs : List Char) : List Char :=
  ((cs.dropWhile Char.isWhitespace).reverse.dropWhile Char.isWhitespace).reverse

/-- Exact decimal literal `digits[.digits]` spanning the whole list, with at
least one digit; `none` otherwise. -/
def decExact (cs : List Char) : Option ℚ :=
  let ds := cs.takeWhile Char.isDigit
  let rest := cs.dropWhile Char.isDigit
  match rest with
  | [] => if ds.isEmpty then none else some (digitsVal ds : ℚ)
  | '.' :: r =>
    let fs := r.takeWhile Char.isDigit
    let r2 := r.dropWhile Char.isDigit
    if r2.isEmpty && !(ds.isEmpty && fs.isEmpty) then
      some ((digitsVal ds : ℚ) + (digitsVal fs : ℚ) / (10 : ℚ) ^ fs.length)
    else none
  | _ => none

/-- Model of the JavaScript Number conversion on strings: trim both ends, an
empty remainder converts to 0, otherwise the whole remainder must be a signed
decimal literal; any other string is NaN (here none).  Exponent, hexadecimal
and Infinity forms are not modelled. -/
def jsNumber (s : String) : Option ℚ :=
  let t := trimChars s.data
  if t.isEmpty then some 0
  else
    match t with
    | '-' :: r => (decExact r).map (fun q => -q)
    | '+' :: r => decExact r
    | t' => decExact t'

/-- Whether s.trim() === '' holds: every character is whitespace. -/
def jsTrimEmpty (s : String) : Bool :=
  s.data.all Char.isWhitespace

/-- JavaScript `<=` on possibly-NaN numbers: any comparison with NaN is
false. -/
def jsLe (a b : Option ℚ) : Bool :=
  match a, b with
  | some x, some y => decide (x ≤ y)
  | _, _ => false

/-- JavaScript `<` on possibly-NaN numbers: any comparison with NaN is
false. -/
def jsLt (a b : Option ℚ) : Bool :=
  match a, b with
  | some x, some y => decide (x < y)
  | _, _ => false

/-- Count of decimal digits in a string: the length of
phone.replace(/\D/g, ''). -/
def digitCount (s : String) : ℕ :=
  (s.data.filter Char.isDigit).length

/-- The formData record of the App component.  Every field is the string
held by the corresponding input (option cards store fixed strings such as
"Moradia", "Sim", "T3", "good"); the two consent flags are booleans. -/
structure FormData where
  propertyType : String
  livingArea : String
  plotArea : String
  floor : String
  propertyConfig : String
  yearBuilt : String
  conservationState : String
  energyClass : String
  elevator : String
  balcony : String
  garage : String
  pool : String
  garden : String
  streetAddress : String
  district : String
  municipality : String
  parish : String
  phone : String
  acceptsContact : Bool
  wantsProfessionalEvaluation : Bool
  deriving DecidableEq, Repr

/-- The initial form state: every string field empty, both flags false. -/
def emptyForm : FormData :=
  { propertyType := "", livingArea := "", plotArea := "", floor := ""
    propertyConfig := "", yearBuilt := "", conservationState := ""
    energyClass := "", elevator := "", balcony := "", garage := ""
    pool := "", garden := "", streetAddress := "", district := ""
    municipality := "", parish := "", phone := ""
    acceptsContact := false, wantsProfessionalEvaluation := false }

/-- getPricePerSquareMeter from src/data/priceData.ts: look the municipality
up in the price table, fall back to 1500 when absent.  The table contents
live in a JSON file outside the embedded core, so the table is a
parameter. -/
def getPricePerSquareMeter (tbl : String → Option ℚ) (municipality : String) : ℚ :=
  (tbl municipality).getD 1500

/-- areaUtil in calculatePropertyValue: parseFloat(livingArea) || 0. -/
def areaUtil (f : FormData) : ℚ :=
  (parseFloatJS f.livingArea).getD 0

/-- areaTotal in calculatePropertyValue:
parseFloat(plotArea || livingArea) || 0 (the empty string is the only falsy
string). -/
def areaTotal (f : FormData) : ℚ :=
  (parseFloatJS (if f.plotArea = "" then f.livingArea else f.plotArea)).getD 0

/-- Model of String.prototype.toUpperCase restricted to ASCII (every string
the form stores is ASCII). -/
def jsUpper (s : String) : String :=
  ⟨s.data.map Char.toUpper⟩

/-- Whether the (uppercased) typology string starts with "T4", as
tip.toUpperCase().startsWith('T4') does. -/
def startsWithT4 (cs : List Char) : Bool :=
  match cs with
  | 'T' :: '4' :: _ => true
  | _ => false

/-- getTipologyAdj: additive typology adjustment for apartments. -/
def getTipologyAdj (tip : String) : ℚ :=
  let t := jsUpper tip
  if t = "T0" then -0.15
  else if t = "T1" then -0.10
  else if t = "T2" then -0.05
  else if t = "T3" then 0
  else if startsWithT4 t.data then 0.10
  else 0

/-- getTipologyFactor: multiplicative typology factor for houses. -/
def getTipologyFactor (tip : String) : ℚ :=
  let t := jsUpper tip
  if t = "T0" then 0.85
  else if t = "T1" then 0.90
  else if t = "T2" then 0.95
  else if t = "T3" then 1.00
  else if startsWithT4 t.data then 1.10
  else 1.00

/-- getAgeAdj: additive age adjustment for apartments, from
parseInt(yearBuilt) and the current year cy. -/
def getAgeAdj (cy : ℤ) (ano : String) : ℚ :=
  match parseIntJS ano with
  | none => 0
  | some year =>
    if cy - year > 20 then -0.10
    else if cy - year > 15 then -0.05
    else if cy - year > 10 then 0
    else 0.15

/-- getAgeFactor: multiplicative age factor for houses. -/
def getAgeFactor (cy : ℤ) (ano : String) : ℚ :=
  match parseIntJS ano with
  | none => 1.00
  | some year =>
    if cy - year > 20 then 0.90
    else if cy - year > 15 then 0.95
    else if cy - year > 10 then 1.00
    else 1.15

/-- getStateAdj: additive conservation-state adjustment for apartments. -/
def getStateAdj (state : String) : ℚ :=
  if state = "good" then 0.10
  else if state = "needs_renovation" then -0.05
  else 0

/-- getStateFactor: multiplicative conservation-state factor for houses. -/
def getStateFactor (state : String) : ℚ :=
  if state = "good" then 1.10
  else if state = "needs_renovation" then 0.95
  else 1.00

/-- getClassAdj: additive energy-class adjustment for apartments. -/
def getClassAdj (cl : String) : ℚ :=
  let c := jsUpper cl
  if c = "A+" then 0.05
  else if c = "A" ∨ c = "B" then 0.02
  else 0

/-- getClassFactor: multiplicative energy-class factor for houses. -/
def getClassFactor (cl : String) : ℚ :=
  let c := jsUpper cl
  if c = "A+" then 1.05
  else if c = "A" ∨ c = "B" then 1.02
  else 1.00

/-- getFloorAdj: additive floor adjustment for apartments, from
parseInt(floor) and the elevator answer. -/
def getFloorAdj (floorStr elevator : String) : ℚ :=
  match parseIntJS floorStr with
  | none => 0
  | some floor =>
    if floor = 0 then -0.05
    else if floor = 1 ∨ floor = 2 then 0
    else if floor ≥ 3 then (if elevator = "Sim" then 0.03 else -0.10)
    else 0

/-- getElevatorAdj: +0.05 only on the second floor or above with an
elevator. -/
def getElevatorAdj (floorStr elevator : String) : ℚ :=
  match parseIntJS floorStr with
  | none => 0
  | some floor => if floor ≥ 2 ∧ elevator = "Sim" then 0.05 else 0

/-- getGarageAdj: +0.05 when the garage answer is "Sim". -/
def getGarageAdj (gar : String) : ℚ :=
  if gar = "Sim" then 0.05 else 0

/-- getBalconyAdj: +0.02 when the balcony answer is "Sim". -/
def getBalconyAdj (bal : String) : ℚ :=
  if bal = "Sim" then 0.02 else 0

/-- getPoolFactor: 1.03 when the pool answer is "Sim". -/
def getPoolFactor (pool : String) : ℚ :=
  if pool = "Sim" then 1.03 else 1.00

/-- getGardenFactor: 1.005 when the garden answer is "Sim". -/
def getGardenFactor (garden : String) : ℚ :=
  if garden = "Sim" then 1.005 else 1.00

/-- totalAdj of the apartment branch: the sum of the eight additive
adjustments. -/
def apartmentTotalAdj (cy : ℤ) (f : FormData) : ℚ :=
  getTipologyAdj f.propertyConfig + getAgeAdj cy f.yearBuilt
    + getStateAdj f.conservationState + getClassAdj f.energyClass
    + getFloorAdj f.floor f.elevator + getElevatorAdj f.floor f.elevator
    + getGarageAdj f.garage + getBalconyAdj f.balcony

/-- price of the apartment branch before rounding:
areaUtil × 1.25 × precoM2 × (1 + totalAdj). -/
def apartmentPrice (cy : ℤ) (tbl : String → Option ℚ) (f : FormData) : ℚ :=
  areaUtil f * 1.25 * getPricePerSquareMeter tbl f.municipality
    * (1 + apartmentTotalAdj cy f)

/-- baseArea of the house branch:
(areaUtil × 0.75) + (areaTotal − areaUtil) × 0.35. -/
def houseBaseArea (f : FormData) : ℚ :=
  areaUtil f * 0.75 + (areaTotal f - areaUtil f) * 0.35

/-- factors of the house branch: the product of the six multiplicative
factors. -/
def houseFactors (cy : ℤ) (f : FormData) : ℚ :=
  getTipologyFactor f.propertyConfig * getAgeFactor cy f.yearBuilt
    * getStateFactor f.conservationState * getPoolFactor f.pool
    * getGardenFactor f.garden * getClassFactor f.energyClass

/-- price of the house branch before rounding:
baseArea × precoM2 × factors. -/
def housePrice (cy : ℤ) (tbl : String → Option ℚ) (f : FormData) : ℚ :=
  houseBaseArea f * getPricePerSquareMeter tbl f.municipality
    * houseFactors cy f

/-- calculatePropertyValue: the apartment formula rounded for
"Apartamento", the house formula rounded for "Moradia", 0 for any other
property type. -/
def calculatePropertyValue (cy : ℤ) (tbl : String → Option ℚ) (f : FormData) : ℤ :=
  if f.propertyType = "Apartamento" then round (apartmentPrice cy tbl f)
  else if f.propertyType = "Moradia" then round (housePrice cy tbl f)
  else 0

/-- The derived step sequence of the wizard, rebuilt from the property type
and the construction year exactly as the steps useMemo pushes names: type
and living area first, the kind-specific area or floor step, typology and
year, the conservation step when parseInt(yearBuilt) succeeds and the age
exceeds 15, the energy class, the kind-specific amenity steps, then
location, contact and result. -/
def steps (cy : ℤ) (f : FormData) : List String :=
  ["Tipo", "AreaUtil"]
    ++ (if f.propertyType = "Moradia" then ["AreaTotal"]
        else if f.propertyType = "Apartamento" then ["Floor"]
        else [])
    ++ ["Tipologia", "Ano"]
    ++ (match parseIntJS f.yearBuilt with
        | some yearNum => if cy - yearNum > 15 then ["Conservacao"] else []
        | none => [])
    ++ ["ClasseEnergetica"]
    ++ (if f.propertyType = "Moradia" then ["Piscina", "Jardim"]
        else if f.propertyType = "Apartamento" then ["Elevador", "Varanda", "Garagem"]
        else [])
    ++ ["Localizacao", "Contacto", "Resultado"]

/-- Body of the isNextDisabled switch for a defined step name; any name
without a case (including "Resultado") falls through to false. -/
def stepDisabled (f : FormData) (stepName : String) : Bool :=
  match stepName with
  | "Tipo" => f.propertyType == ""
  | "AreaUtil" =>
    jsTrimEmpty f.livingArea || jsLe (jsNumber f.livingArea) (some 0)
  | "AreaTotal" =>
    jsTrimEmpty f.plotArea || jsLe (jsNumber f.plotArea) (some 0)
      || jsLe (jsNumber f.plotArea) (jsNumber f.livingArea)
  | "Floor" => jsTrimEmpty f.floor || jsLt (jsNumber f.floor) (some 0)
  | "Tipologia" => f.propertyConfig == ""
  | "Ano" =>
    jsTrimEmpty f.yearBuilt || (jsNumber f.yearBuilt).isNone
      || jsLt (jsNumber f.yearBuilt) (some 1900)
      || jsLt (some 2025) (jsNumber f.yearBuilt)
  | "Conservacao" => f.conservationState == ""
  | "ClasseEnergetica" => f.energyClass == ""
  | "Piscina" => f.pool == ""
  | "Jardim" => f.garden == ""
  | "Elevador" => f.elevator == ""
  | "Varanda" => f.balcony == ""
  | "Garagem" => f.garage == ""
  | "Localizacao" =>
    f.district == "" || f.municipality == "" || f.parish == ""
  | "Contacto" => digitCount f.phone != 9
  | _ => false

/-- isNextDisabled: the switch runs on steps[currentStep], which is
undefined (here none) when the index is out of range and then takes the
default branch. -/
def isNextDisabled (cy : ℤ) (f : FormData) (currentStep : ℕ) : Bool :=
  match (steps cy f)[currentStep]? with
  | some stepName => stepDisabled f stepName
  | none => false

/-- goToNextStep: Math.min(s + 1, steps.length − 1). -/
def goToNextStep (cy : ℤ) (f : FormData) (s : ℤ) : ℤ :=
  min (s + 1) (((steps cy f).length : ℤ) - 1)

/-- goToPreviousStep: Math.max(s − 1, 0). -/
def goToPreviousStep (s : ℤ) : ℤ :=
  max (s - 1) 0

/-- handleDistrictChange: set the district, clear municipality and parish,
keep every other field. -/
def handleDistrictChange (f : FormData) (value : String) : FormData :=
  { f with district := value, municipality := "", parish := "" }

/-- handleMunicipalityChange: set the municipality, clear the parish, keep
every other field. -/
def handleMunicipalityChange (f : FormData) (value : String) : FormData :=
  { f with municipality := value, parish := "" }

/-- Follows the spec's words for the conservation-step rule: the
construction-year field is a valid 4-digit number, that is, exactly four
characters, all decimal digits. -/
def fourDigitYear (s : String) : Bool :=
  s.data.length = 4 && s.data.all Char.isDigit

/-- Price table assigning 1800 €/m² to every municipality. -/
def tbl1800 : String → Option ℚ := fun _ => some 1800

/-- Price table assigning 2000 €/m² to every municipality. -/
def tbl2000 : String → Option ℚ := fun _ => some 2000

/-- Empty price table: every lookup falls back to the 1500 default. -/
def noTable : String → Option ℚ := fun _ => none

/-- The house scenario: 150 m² living area, 400 m² plot, T4+, built 1995,
needing renovation, pool, no garden, class D. -/
def formHouse : FormData :=
  { emptyForm with
    propertyType := "Moradia", livingArea := "150", plotArea := "400",
    propertyConfig := "T4+", yearBuilt := "1995",
    conservationState := "needs_renovation", pool := "Sim", garden := "Não",
    energyClass := "D" }

/-- The apartment scenario: 80 m², floor 5 with elevator, T2, built 2010,
good condition, class B, garage, no balcony. -/
def formApt : FormData :=
  { emptyForm with
    propertyType := "Apartamento", livingArea := "80", floor := "5",
    elevator := "Sim", propertyConfig := "T2", yearBuilt := "2010",
    conservationState := "good", energyClass := "B", garage := "Sim",
    balcony := "Não" }

/-- An apartment answer set with layout T3, floor 1, no amenities and a
construction age of 20 years as of 2025. -/
def formAptAge20 : FormData :=
  { emptyForm with
    propertyType := "Apartamento", propertyConfig := "T3",
    yearBuilt := "2005", livingArea := "100", floor := "1" }

/-- An apartment answer set with layout T3, floor 1, no amenities and a
construction age of 12 years as of 2025. -/
def formAptAge12 : FormData :=
  { emptyForm with
    propertyType := "Apartamento", propertyConfig := "T3",
    yearBuilt := "2013", livingArea := "100", floor := "1" }

/-- A form whose construction-year field holds the single digit "5". -/
def formYearFive : FormData :=
  { emptyForm with yearBuilt := "5" }

/-- A house form whose plot-area field holds the non-numeric text "abc". -/
def formPlotNaN : FormData :=
  { emptyForm with
    propertyType := "Moradia", livingArea := "50", plotArea := "abc" }

/-- A house form with a valid plot area larger than the living area. -/
def formPlotOk : FormData :=
  { emptyForm with
    propertyType := "Moradia", livingArea := "50", plotArea := "400" }

/-- A form whose property type is neither "Moradia" nor "Apartamento". -/
def formUnknownType : FormData :=
  { emptyForm with propertyType := "Terreno" }

/-- An apartment form used to instantiate the non-interference theorem. -/
def formAptPlain : FormData :=
  { emptyForm with propertyType := "Apartamento", livingArea := "80" }

/-- C1 counterexample: at construction age 20 (built 2005, current year
2025) with layout T3, floor 1, condition, energy class and amenities unset,
the total adjustment is −0.05, not 0, and the estimated value differs from
round(livingArea × 1.25 × pricePerArea): the claim's age window [11, 20] is
wrong, the code only leaves ages in (10, 15] unadjusted. -/
theorem apartment_t3_age_counterexample :
    apartmentTotalAdj 2025 formAptAge20 ≠ 0
    ∧ calculatePropertyValue 2025 noTable formAptAge20
        ≠ round (areaUtil formAptAge20 * 1.25
            * getPricePerSquareMeter noTable formAptAge20.municipality) := by
  constructor
  · have h : apartmentTotalAdj 2025 formAptAge20
        = 0 + (-0.05) + 0 + 0 + 0 + 0 + 0 + 0 := rfl
    rw [h]; norm_num
  · have hv : calculatePropertyValue 2025 noTable formAptAge20
        = round ((((100 : ℕ) : ℚ) + ((0 : ℕ) : ℚ) / (10 : ℚ) ^ (0 : ℕ))
            * 1.25 * 1500 * (1 + (0 + (-0.05) + 0 + 0 + 0 + 0 + 0 + 0))) := rfl
    have hr : round (areaUtil formAptAge20 * 1.25
          * getPricePerSquareMeter noTable formAptAge20.municipality)
        = round ((((100 : ℕ) : ℚ) + ((0 : ℕ) : ℚ) / (10 : ℚ) ^ (0 : ℕ))
            * 1.25 * 1500) := rfl
    rw [hv, hr, round_eq, round_eq]; norm_num

/-- C1 (amended): for every apartment answer set with layout T3, parsed
construction age between 11 and 15 inclusive, condition and energy class
unset, parsed floor 1 or 2, and no amenities, the total adjustment is 0 and
the estimated value is round(livingArea × 1.25 × pricePerArea). -/
theorem apartment_t3_no_adjustment
    (cy : ℤ) (tbl : String → Option ℚ) (f : FormData) (y fl : ℤ)
    (hk : f.propertyType = "Apartamento") (hcfg : f.propertyConfig = "T3")
    (hy : parseIntJS f.yearBuilt = some y)
    (h11 : 11 ≤ cy - y) (h15 : cy - y ≤ 15)
    (hcond : f.conservationState = "") (hen : f.energyClass = "")
    (hfl : parseIntJS f.floor = some fl) (hfl12 : fl = 1 ∨ fl = 2)
    (hel : f.elevator ≠ "Sim") (hga : f.garage ≠ "Sim")
    (hba : f.balcony ≠ "Sim") :
    apartmentTotalAdj cy f = 0
    ∧ calculatePropertyValue cy tbl f
        = round (areaUtil f * 1.25 * getPricePerSquareMeter tbl f.municipality) := by
  have h1 : getTipologyAdj f.propertyConfig = 0 := by rw [hcfg]; rfl
  have h2 : getAgeAdj cy f.yearBuilt = 0 := by
    simp only [getAgeAdj, hy]
    rw [if_neg (by omega), if_neg (by omega), if_pos (by omega)]
  have h3 : getStateAdj f.conservationState = 0 := by rw [hcond]; rfl
  have h4 : getClassAdj f.energyClass = 0 := by rw [hen]; rfl
  have h5 : getFloorAdj f.floor f.elevator = 0 := by
    simp only [getFloorAdj, hfl]
    rcases hfl12 with h | h <;> subst h <;> norm_num
  have h6 : getElevatorAdj f.floor f.elevator = 0 := by
    simp only [getElevatorAdj, hfl]
    rw [if_neg]
    rintro ⟨-, hsim⟩
    exact hel hsim
  have h7 : getGarageAdj f.garage = 0 := by
    unfold getGarageAdj; rw [if_neg hga]
  have h8 : getBalconyAdj f.balcony = 0 := by
    unfold getBalconyAdj; rw [if_neg hba]
  have hadj : apartmentTotalAdj cy f = 0 := by
    unfold apartmentTotalAdj
    rw [h1, h2, h3, h4, h5, h6, h7, h8]
    norm_num
  refine ⟨hadj, ?_⟩
  unfold calculatePropertyValue
  rw [if_pos hk]
  unfold apartmentPrice
  rw [hadj]
  norm_num

/-- C1 witness: the amended statement at the concrete answer set built in
2013 (age 12 in 2025). -/
theorem apartment_t3_no_adjustment_witness :
    apartmentTotalAdj 2025 formAptAge12 = 0
    ∧ calculatePropertyValue 2025 noTable formAptAge12
        = round (areaUtil formAptAge12 * 1.25
            * getPricePerSquareMeter noTable formAptAge12.municipality) :=
  apartment_t3_no_adjustment 2025 noTable formAptAge12 2013 1
    rfl rfl rfl (by norm_num) (by norm_num) rfl rfl rfl (Or.inl rfl)
    (by decide) (by decide) (by decide)

/-- C2 counterexample: in the house scenario the base area computed by the
code is 200, not the 199.25 the claim states (150 × 0.75 + 250 × 0.35
equals 200). -/
theorem house_scenario_basearea_counterexample :
    houseBaseArea formHouse ≠ (199.25 : ℚ) := by
  have h : houseBaseArea formHouse
      = (((150 : ℕ) : ℚ) + ((0 : ℕ) : ℚ) / (10 : ℚ) ^ (0 : ℕ)) * 0.75
        + ((((400 : ℕ) : ℚ) + ((0 : ℕ) : ℚ) / (10 : ℚ) ^ (0 : ℕ))
            - (((150 : ℕ) : ℚ) + ((0 : ℕ) : ℚ) / (10 : ℚ) ^ (0 : ℕ))) * 0.35 := rfl
  rw [h]; norm_num

/-- C2 (amended): in the house scenario (150 m² living, 400 m² plot, T4+,
age 30, needs renovation, pool, no garden, class D, 1800 €/m²) the base
area is 200, the combined factor is 1.10 × 0.90 × 0.95 × 1.03 × 1.00 ×
1.00, and the value is round(200 × 1800 × that factor). -/
theorem house_scenario_value :
    houseBaseArea formHouse = 200
    ∧ houseFactors 2025 formHouse = 1.10 * 0.90 * 0.95 * 1.03 * 1.00 * 1.00
    ∧ calculatePropertyValue 2025 tbl1800 formHouse
        = round ((200 : ℚ) * 1800 * (1.10 * 0.90 * 0.95 * 1.03 * 1.00 * 1.00)) := by
  have hb : houseBaseArea formHouse
      = (((150 : ℕ) : ℚ) + ((0 : ℕ) : ℚ) / (10 : ℚ) ^ (0 : ℕ)) * 0.75
        + ((((400 : ℕ) : ℚ) + ((0 : ℕ) : ℚ) / (10 : ℚ) ^ (0 : ℕ))
            - (((150 : ℕ) : ℚ) + ((0 : ℕ) : ℚ) / (10 : ℚ) ^ (0 : ℕ))) * 0.35 := rfl
  have hb200 : houseBaseArea formHouse = 200 := by rw [hb]; norm_num
  have hf : houseFactors 2025 formHouse
      = 1.10 * 0.90 * 0.95 * 1.03 * 1.00 * 1.00 := rfl
  refine ⟨hb200, hf, ?_⟩
  have hv : calculatePropertyValue 2025 tbl1800 formHouse
      = round (houseBaseArea formHouse * 1800 * houseFactors 2025 formHouse) := rfl
  rw [hv, hb200, hf]

/-- C5: in the apartment scenario (80 m², floor 5 with elevator, T2, built
2010 so age 15 in 2025, good condition, class B, garage, no balcony,
2000 €/m²) the total adjustment is 0.20 and the value is 240000. -/
theorem apartment_scenario_value :
    apartmentTotalAdj 2025 formApt = 0.20
    ∧ calculatePropertyValue 2025 tbl2000 formApt = 240000 := by
  have ha : apartmentTotalAdj 2025 formApt
      = (-0.05) + 0 + 0.10 + 0.02 + 0.03 + 0.05 + 0.05 + 0 := rfl
  have ha2 : apartmentTotalAdj 2025 formApt = 0.20 := by rw [ha]; norm_num
  refine ⟨ha2, ?_⟩
  have hv : calculatePropertyValue 2025 tbl2000 formApt
      = round ((((80 : ℕ) : ℚ) + ((0 : ℕ) : ℚ) / (10 : ℚ) ^ (0 : ℕ))
          * 1.25 * 2000 * (1 + apartmentTotalAdj 2025 formApt)) := rfl
  rw [hv, ha2, round_eq]
  norm_num

/-- C6: the valuation returns the rounded apartment formula for
"Apartamento", the rounded house formula for "Moradia", and exactly 0 for
any other property type. -/
theorem value_zero_unrecognized (cy : ℤ) (tbl : String → Option ℚ) (f : FormData) :
    (f.propertyType = "Apartamento" →
        calculatePropertyValue cy tbl f = round (apartmentPrice cy tbl f))
    ∧ (f.propertyType = "Moradia" →
        calculatePropertyValue cy tbl f = round (housePrice cy tbl f))
    ∧ (f.propertyType ≠ "Apartamento" → f.propertyType ≠ "Moradia" →
        calculatePropertyValue cy tbl f = 0) := by
  refine ⟨fun h => ?_, fun h => ?_, fun h1 h2 => ?_⟩
  · simp [calculatePropertyValue, h]
  · simp [calculatePropertyValue, h]
  · simp [calculatePropertyValue, h1, h2]

/-- C6 witness: the value is 0 on the form whose property type is the
unrecognized "Terreno". -/
theorem value_zero_unrecognized_witness :
    calculatePropertyValue 2025 noTable formUnknownType = 0 :=
  (value_zero_unrecognized 2025 noTable formUnknownType).2.2
    (by decide) (by decide)

/-- C8: advancing goes to min(i + 1, n − 1) and retreating to max(i − 1, 0)
over the derived sequence of length n; advancing from the last index and
retreating from index 0 are no-ops. -/
theorem navigation_clamp (cy : ℤ) (f : FormData) (i : ℤ) :
    goToNextStep cy f i = min (i + 1) (((steps cy f).length : ℤ) - 1)
    ∧ goToPreviousStep i = max (i - 1) 0
    ∧ goToNextStep cy f (((steps cy f).length : ℤ) - 1)
        = ((steps cy f).length : ℤ) - 1
    ∧ goToPreviousStep 0 = 0 := by
  refine ⟨rfl, rfl, ?_, rfl⟩
  unfold goToNextStep
  omega

/-- C9: the apartment formula reads none of plotArea, pool and garden, so
two apartment answer sets differing only there get the same value. -/
theorem apartment_ignores_house_fields
    (cy : ℤ) (tbl : String → Option ℚ) (f : FormData) (pa po ga : String)
    (hk : f.propertyType = "Apartamento") :
    calculatePropertyValue cy tbl
        { f with plotArea := pa, pool := po, garden := ga }
      = calculatePropertyValue cy tbl f := by
  simp only [calculatePropertyValue, hk]
  rfl

/-- C9 witness: the concrete apartment form with plot area, pool and garden
overwritten keeps its value. -/
theorem apartment_ignores_house_fields_witness :
    calculatePropertyValue 2025 noTable
        { formAptPlain with plotArea := "999", pool := "Sim", garden := "Sim" }
      = calculatePropertyValue 2025 noTable formAptPlain :=
  apartment_ignores_house_fields 2025 noTable formAptPlain "999" "Sim" "Sim" rfl

/-- C10: when the current index is at or beyond the length of the freshly
derived sequence, steps[currentStep] is undefined, the switch falls through
to its default, and the Next button is not disabled. -/
theorem out_of_range_next_enabled (cy : ℤ) (f : FormData) (i : ℕ)
    (h : (steps cy f).length ≤ i) :
    isNextDisabled cy f i = false := by
  unfold isNextDisabled
  rw [List.getElem?_eq_none h]

/-- C10 witness: with the empty form (8 derived steps) and index 50 the
Next button is enabled. -/
theorem out_of_range_next_enabled_witness :
    isNextDisabled 2025 emptyForm 50 = false :=
  out_of_range_next_enabled 2025 emptyForm 50 (by decide)

/-- C3 counterexample: with the one-digit year "5" (current year 2025) the
condition step does appear, yet "5" is not a valid 4-digit number: the
code gates the step on parseInt alone, not on a 4-digit check. -/
theorem conservacao_fourdigit_counterexample :
    "Conservacao" ∈ steps 2025 formYearFive
    ∧ fourDigitYear "5" = false := by
  constructor
  · decide
  · rfl

/-- C3 (amended): the condition step appears in the derived sequence iff
parseInt(yearBuilt) succeeds and (currentYear − year) > 15, and when it
appears it sits immediately before the energy-class step. -/
theorem conservacao_step_iff (cy : ℤ) (f : FormData) :
    ("Conservacao" ∈ steps cy f ↔
        ∃ y, parseIntJS f.yearBuilt = some y ∧ cy - y > 15)
    ∧ (∀ y, parseIntJS f.yearBuilt = some y → cy - y > 15 →
        ∃ l1 l2, steps cy f = l1 ++ "Conservacao" :: "ClasseEnergetica" :: l2) := by
  constructor
  · unfold steps
    cases hy : parseIntJS f.yearBuilt with
    | none => split_ifs <;> simp [hy]
    | some y =>
      by_cases hgt : cy - y > 15 <;> split_ifs <;> simp [hy, hgt]
  · intro y hy hgt
    refine ⟨["Tipo", "AreaUtil"]
        ++ (if f.propertyType = "Moradia" then ["AreaTotal"]
            else if f.propertyType = "Apartamento" then ["Floor"]
            else [])
        ++ ["Tipologia", "Ano"],
      (if f.propertyType = "Moradia" then ["Piscina", "Jardim"]
          else if f.propertyType = "Apartamento" then
            ["Elevador", "Varanda", "Garagem"]
          else [])
        ++ ["Localizacao", "Contacto", "Resultado"], ?_⟩
    unfold steps
    rw [hy]
    simp [hgt]

/-- C3 witness: the amended iff instantiated at the form built in 2005
(age 20 in 2025) places the condition step in the sequence. -/
theorem conservacao_step_iff_witness :
    "Conservacao" ∈ steps 2025 formAptAge20 :=
  (conservacao_step_iff 2025 formAptAge20).1.mpr ⟨2005, rfl, by norm_num⟩

/-- C4 counterexample: on the total-area step with the non-numeric plot
area "abc" (living area "50"), the Number conversion is NaN, every guard
comparison is false, and advancing is permitted even though the field does
not parse, contradicting the claimed "numeric and greater than living
area" rule. -/
theorem areatotal_nan_counterexample :
    (steps 2025 formPlotNaN)[2]? = some "AreaTotal"
    ∧ jsNumber formPlotNaN.plotArea = none
    ∧ isNextDisabled 2025 formPlotNaN 2 = false :=
  ⟨rfl, rfl, rfl⟩

/-- C4 (amended): on the total-area step, advancing is permitted iff the
plot-area field is not blank after trimming and no guard fires, where
comparisons against a non-numeric (NaN) value are false: whenever the
plot area parses it must be positive and exceed the parsed living area,
but a non-parsing plot area (or living area, for the comparison against
it) passes. -/
theorem areatotal_next_enabled_iff (cy : ℤ) (f : FormData) (i : ℕ)
    (hstep : (steps cy f)[i]? = some "AreaTotal") :
    isNextDisabled cy f i = false ↔
      (jsTrimEmpty f.plotArea = false
        ∧ ∀ q, jsNumber f.plotArea = some q →
            0 < q ∧ ∀ r, jsNumber f.livingArea = some r → r < q) := by
  unfold isNextDisabled
  rw [hstep]
  show stepDisabled f "AreaTotal" = false ↔ _
  unfold stepDisabled
  cases hp : jsNumber f.plotArea with
  | none => simp [jsLe]
  | some q =>
    cases hl : jsNumber f.livingArea with
    | none => simp [jsLe, not_le]
    | some r => simp [jsLe, not_le, and_assoc]

/-- C4 witness: with living area "50" and plot area "400" the amended rule
reports the Next button enabled on the total-area step. -/
theorem areatotal_next_enabled_iff_witness :
    isNextDisabled 2025 formPlotOk 2 = false := by
  apply (areatotal_next_enabled_iff 2025 formPlotOk 2 rfl).mpr
  refine ⟨rfl, fun q hq => ?_⟩
  have h400 : jsNumber formPlotOk.plotArea = some ((400 : ℕ) : ℚ) := rfl
  rw [h400] at hq
  cases hq
  refine ⟨by norm_num, fun r hr => ?_⟩
  have h50 : jsNumber formPlotOk.livingArea = some ((50 : ℕ) : ℚ) := rfl
  rw [h50] at hr
  cases hr
  norm_num

/-- C7: changing the district sets it and clears municipality and parish;
changing the municipality sets it and clears the parish; each handler
leaves every other field untouched. -/
theorem location_change_frame (f : FormData) (v : String) :
    (handleDistrictChange f v).district = v
    ∧ (handleDistrictChange f v).municipality = ""
    ∧ (handleDistrictChange f v).parish = ""
    ∧ (handleDistrictChange f v).propertyType = f.propertyType
    ∧ (handleDistrictChange f v).livingArea = f.livingArea
    ∧ (handleDistrictChange f v).plotArea = f.plotArea
    ∧ (handleDistrictChange f v).floor = f.floor
    ∧ (handleDistrictChange f v).propertyConfig = f.propertyConfig
    ∧ (handleDistrictChange f v).yearBuilt = f.yearBuilt
    ∧ (handleDistrictChange f v).conservationState = f.conservationState
    ∧ (handleDistrictChange f v).energyClass = f.energyClass
    ∧ (handleDistrictChange f v).elevator = f.elevator
    ∧ (handleDistrictChange f v).balcony = f.balcony
    ∧ (handleDistrictChange f v).garage = f.garage
    ∧ (handleDistrictChange f v).pool = f.pool
    ∧ (handleDistrictChange f v).garden = f.garden
    ∧ (handleDistrictChange f v).streetAddress = f.streetAddress
    ∧ (handleDistrictChange f v).phone = f.phone
    ∧ (handleDistrictChange f v).acceptsContact = f.acceptsContact
    ∧ (handleDistrictChange f v).wantsProfessionalEvaluation
        = f.wantsProfessionalEvaluation
    ∧ (handleMunicipalityChange f v).municipality = v
    ∧ (handleMunicipalityChange f v).parish = ""
    ∧ (handleMunicipalityChange f v).district = f.district
    ∧ (handleMunicipalityChange f v).propertyType = f.propertyType
    ∧ (handleMunicipalityChange f v).livingArea = f.livingArea
    ∧ (handleMunicipalityChange f v).plotArea = f.plotArea
    ∧ (handleMunicipalityChange f v).floor = f.floor
    ∧ (handleMunicipalityChange f v).propertyConfig = f.propertyConfig
    ∧ (handleMunicipalityChange f v).yearBuilt = f.yearBuilt
    ∧ (handleMunicipalityChange f v).conservationState = f.conservationState
    ∧ (handleMunicipalityChange f v).energyClass = f.energyClass
    ∧ (handleMunicipalityChange f v).elevator = f.elevator
    ∧ (handleMunicipalityChange f v).balcony = f.balcony
    ∧ (handleMunicipalityChange f v).garage = f.garage
    ∧ (handleMunicipalityChange f v).pool = f.pool
    ∧ (handleMunicipalityChange f v).garden = f.garden
    ∧ (handleMunicipalityChange f v).streetAddress = f.streetAddress
    ∧ (handleMunicipalityChange f v).phone = f.phone
    ∧ (handleMunicipalityChange f v).acceptsContact = f.acceptsContact
    ∧ (handleMunicipalityChange f v).wantsProfessionalEvaluation
        = f.wantsProfessionalEvaluation :=
  ⟨rfl, rfl, rfl, rfl, rfl, rfl, rfl, rfl, rfl, rfl, rfl, rfl, rfl, rfl,
    rfl, rfl, rfl, rfl, rfl, rfl, rfl, rfl, rfl, rfl, rfl, rfl, rfl, rfl,
    rfl, rfl, rfl, rfl, rfl, rfl, rfl, rfl, rfl, rfl, rfl, rfl⟩

end Avaliacao
